import Mathlib

/-!
Shallow embedding of `src/monitor-validator-streams.py` (class `XrplMonitorUtils`
plus its module-level driver code) and proofs about it.

Modelling conventions:
* Timestamps are rationals (`ℚ`); every call of Python's `time.time()` inside a
  single tick of `monitor_response_times` (lines 84, 100, 106 of the source) is
  modelled as the single instant `now` of that tick, i.e. time does not advance
  while one tick body runs.
* Python dictionaries (`type_timers`, `ms_since_last`) are association lists
  with insertion-order semantics: an assignment replaces the value of an
  existing key in place, or appends a fresh key at the end.
* Fallible Python code is modelled in `Except String`: a `.error e` value is an
  exception carrying (an abstraction of) the Python exception, and a value that
  escapes to a caller models an exception propagating to that caller.
* The alert message strings built on lines 93 and 96 of the source are
  abstracted to the list of (category, elapsed) pairs interpolated into them
  (type `Alert`); string concatenation becomes list append, so the combined
  message of one SMS is one `Alert` value.
* External effects are oracles: what a websocket session delivers is a
  `SessionTrace`, and what the Twilio delivery call does is an
  `Except String String` argument of `send_sms`.  Diagnostic prints
  (`pprint`, `err_log_custom`) carry no state and are dropped.
-/

namespace ValidatorMonitor

/-- A Python dict from category tag to timestamp (`type_timers`,
`ms_since_last` in the source), as an insertion-ordered association list. -/
abbrev Table := List (String × ℚ)

/-- Dict read `d[k]`; `none` models a `KeyError`. -/
def findVal : Table → String → Option ℚ
  | [], _ => none
  | (k, v) :: t, c => if k = c then some v else findVal t c

/-- Dict write `d[k] = v`: replace the value of an existing key in place,
otherwise append the fresh key at the end (Python insertion order). -/
def setVal : Table → String → ℚ → Table
  | [], c, v => [(c, v)]
  | (k, w) :: t, c, v => if k = c then (k, v) :: t else (k, w) :: setVal t c v

/-- Source line 18: `max_retries = 5`. -/
def max_retries : Nat := 5

/-- Source line 19: `ledger_closed_threshold_seconds = 8.0`. -/
def ledger_closed_threshold_seconds : ℚ := 8

/-- Source line 20: `consensus_phase_threshold_seconds = 6.0`. -/
def consensus_phase_threshold_seconds : ℚ := 6

/-- Source line 21: `minimum_sms_gap_seconds = 300`. -/
def minimum_sms_gap_seconds : ℚ := 300

/-- Source line 33: the closed list of known categories. -/
def response_types : List String :=
  ["ledgerClosed", "serverStatus", "consensusPhase", "response", "totalRuntime"]

/-- Source line 35: categories echoed to terminal output. -/
def terminal_output_response_types : List String := ["response", "consensusPhase"]

/-- Source lines 44-45 (`__init__`): `type_timers[cur_type]` is `0.0` for every
category except `totalRuntime`, which gets the current time. -/
def init_type_timers (now : ℚ) : Table :=
  response_types.foldl (fun t c => setVal t c (if c = "totalRuntime" then now else 0)) []

/-- Source lines 44, 46 (`__init__`): `ms_since_last[cur_type] = 0.0`. -/
def init_ms_since_last : Table :=
  response_types.foldl (fun t c => setVal t c 0) []

/-- Abstraction of one raw inbound websocket message, by how far
`handle_response` (lines 53-58) gets with it:
`malformed` makes `json.loads` raise, `noTag` parses as JSON but evaluating
`response[...]` for the type tag raises, `tagged ty` parses with type tag
`ty`. -/
inductive RawMsg
  | malformed
  | noTag
  | tagged (ty : String)
deriving DecidableEq, Repr

/-- Source lines 53-58, `handle_response`: parse the message, then set
`type_timers[response_type] = time.time()`.  There is no try/except in the
source body, so a parse or tag failure is an `.error` escaping to the caller.
The `pprint` of messages in `terminal_output_response_types` (lines 57-58)
is a stateless print and is dropped. -/
def handle_response (type_timers : Table) (now : ℚ) : RawMsg → Except String Table
  | .malformed => .error "JSONDecodeError"
  | .noTag => .error "KeyError"
  | .tagged ty => .ok (setVal type_timers ty now)

/-- Source lines 71-72, the receive loop `while True:
handle_response(await web_socket.recv())`.  The trace lists the messages the
socket delivers, each with its arrival time.  The loop has no normal exit: it
returns `(t, some e)` when an exception `e` escapes `handle_response`, and
`(t, none)` when the trace is exhausted, i.e. the loop is still blocked in
`recv` with table `t`. -/
def receive_loop : Table → List (ℚ × RawMsg) → Table × Option String
  | t, [] => (t, none)
  | t, (now, m) :: rest =>
    match handle_response t now m with
    | .ok t' => receive_loop t' rest
    | .error e => (t, some e)

/-- Oracle for one whole websocket session of `monitor_validator`:
`connect_error` is `some e` when `websockets.connect` or the subscribe `send`
raises `e`; `msgs` are the messages delivered before the terminal event;
`disconnect` is `some e` when, after `msgs`, `recv` raises `e` (remote close,
network error), and `none` when the session never ends on its own. -/
structure SessionTrace where
  connect_error : Option String
  msgs : List (ℚ × RawMsg)
  disconnect : Option String
deriving Repr

/-- Result of running `monitor_validator` on one session: the table after the
session, how many "Monitoring Connection Restarted" notifications were sent
(lines 66-69), and how the coroutine ended.  `err = none` means it has not
ended: the `while True` receive loop of lines 71-72 has no `break` or
`return`, so the coroutine can only end by an exception escaping — a clean
return is impossible and has no representation here. -/
structure SessionResult where
  timers : Table
  restored_notifs : Nat
  err : Option String
deriving Repr

/-- Source lines 60-72, `monitor_validator`: connect and subscribe (either may
raise), then — before any message is received — send the restart notification
iff `reconnect_count > 0`, then run the receive loop forever. -/
def monitor_validator (reconnect_count : Nat) (type_timers : Table)
    (tr : SessionTrace) : SessionResult :=
  match tr.connect_error with
  | some e => ⟨type_timers, 0, some e⟩
  | none =>
    let restored := if reconnect_count > 0 then 1 else 0
    match receive_loop type_timers tr.msgs with
    | (t', some e) => ⟨t', restored, some e⟩
    | (t', none) => ⟨t', restored, tr.disconnect⟩

/-- Observable outcome of `run_resilient_connection`: number of connection
attempts made (calls of `asyncio.run(monitor_validator())`), number of
"Connection Closed! Attempting restart" notifications sent (line 128), number
of "Monitoring Connection Restarted" notifications, the final value of
`reconnect_count`, the final table, and whether the process is still inside a
session (`running = true`) or the supervisor returned (`running = false`). -/
structure RunStats where
  attempts : Nat
  retry_notifs : Nat
  restored_notifs : Nat
  reconnect_count : Nat
  timers : Table
  running : Bool
deriving Repr

/-- Source lines 121-132, `run_resilient_connection`.  `sessions i` is the
session trace of the `i`-th connection attempt.  When the session ends with an
exception: `reconnect_count += 1`, the retry notification is sent and the 10
second sleep happens unconditionally (lines 126-130), and the cycle re-runs
iff `reconnect_count <= max_retries` (line 131).  When the session never ends
(`err = none`), control never leaves `asyncio.run`, so the
`self.reconnect_count = 0` of line 124 is not executed and the count keeps its
value for the lifetime of the session. -/
def run_resilient_connection (sessions : Nat → SessionTrace) (attempt : Nat)
    (reconnect_count : Nat) (type_timers : Table) : RunStats :=
  let r := monitor_validator reconnect_count type_timers (sessions attempt)
  match r.err with
  | none => ⟨1, 0, r.restored_notifs, reconnect_count, r.timers, true⟩
  | some _ =>
    if h : reconnect_count + 1 ≤ max_retries then
      let rest := run_resilient_connection sessions (attempt + 1)
        (reconnect_count + 1) r.timers
      ⟨1 + rest.attempts, 1 + rest.retry_notifs,
       r.restored_notifs + rest.restored_notifs,
       rest.reconnect_count, rest.timers, rest.running⟩
    else ⟨1, 1, r.restored_notifs, reconnect_count + 1, r.timers, false⟩
termination_by max_retries + 1 - reconnect_count
decreasing_by simp only [max_retries] at *; omega

/-- One SMS alert message, abstracted to the (category, elapsed) pairs the
source interpolates into the string `msg_body` (lines 93, 96). -/
abbrev Alert := List (String × ℚ)

/-- Mutable local state of the monitoring thread `monitor_response_times`
(lines 75-77): `sms_enabled`, `latest_sms_time`, and the instance dict
`ms_since_last`. -/
structure TickState where
  sms_enabled : Bool
  latest_sms_time : ℚ
  ms_since_last : Table
deriving DecidableEq, Repr

/-- Source lines 82-84: for each key of `ms_since_last` in order, set
`ms_since_last[res_type] = time.time() - type_timers[res_type]`.  The result
is the table paired with `some "KeyError"` when some key is missing from
`type_timers`; entries before the failing one are already updated (the Python
loop mutates entry by entry), the failing one and the rest keep their old
values. -/
def update_ms (type_timers : Table) (now : ℚ) : Table → Table × Option String
  | [] => ([], none)
  | (k, v) :: rest =>
    match findVal type_timers k with
    | none => ((k, v) :: rest, some "KeyError")
    | some tv =>
      let r := update_ms type_timers now rest
      ((k, now - tv) :: r.1, r.2)

/-- Source lines 86-102, the `if sms_enabled:` block.  Reads
`ms_since_last['ledgerClosed']` (line 91) then `ms_since_last['consensusPhase']`
(line 94); a missing key is a `KeyError` escaping before any state change
(the writes of lines 100-101 come after both reads).  `send1`/`body1` is the
state of `send_msg`/`msg_body` after line 93, `send2`/`body2` after line 96.
Returns the new `(sms_enabled, latest_sms_time)` and the list of `send_sms`
calls made (empty or one element). -/
def alert_check (ms : Table) (sms_enabled : Bool) (latest_sms_time now : ℚ) :
    Except String (Bool × ℚ × List Alert) :=
  if sms_enabled then
    match findVal ms "ledgerClosed", findVal ms "consensusPhase" with
    | none, _ => .error "KeyError"
    | some _, none => .error "KeyError"
    | some ml, some mc =>
      let send1 : Bool := decide (ml ≥ ledger_closed_threshold_seconds)
      let body1 : Alert :=
        if ml ≥ ledger_closed_threshold_seconds then [("ledgerClosed", ml)] else []
      let send2 : Bool :=
        if mc ≥ consensus_phase_threshold_seconds then true else send1
      let body2 : Alert :=
        if mc ≥ consensus_phase_threshold_seconds
        then body1 ++ [("consensusPhase", mc)] else body1
      if send2 then .ok (false, now, [body2])
      else .ok (sms_enabled, latest_sms_time, [])
  else .ok (sms_enabled, latest_sms_time, [])

/-- Source lines 104-111, the `if not sms_enabled:` block: re-enable iff
`time.time() - latest_sms_time > minimum_sms_gap_seconds` (strict `>`,
line 107). -/
def reenable_check (sms_enabled : Bool) (latest_sms_time now : ℚ) : Bool :=
  if sms_enabled then sms_enabled
  else if now - latest_sms_time > minimum_sms_gap_seconds then true
  else sms_enabled

/-- One iteration of the `while True:` loop of `monitor_response_times`
(lines 78-118) at instant `now`.  The surrounding `try/except` catches any
exception from the body: a `KeyError` from `update_ms` or `alert_check` leaves
the SMS state untouched (the tick is skipped) but keeps whatever entries the
`ms_since_last` update loop had already written.  Returns the new thread state
and the list of `send_sms` calls made during the tick. -/
def monitor_tick (type_timers : Table) (s : TickState) (now : ℚ) :
    TickState × List Alert :=
  match update_ms type_timers now s.ms_since_last with
  | (ms', some _) => ({ s with ms_since_last := ms' }, [])
  | (ms', none) =>
    match alert_check ms' s.sms_enabled s.latest_sms_time now with
    | .error _ => ({ s with ms_since_last := ms' }, [])
    | .ok (en1, lt1, alerts) =>
      (⟨reenable_check en1 lt1 now, lt1, ms'⟩, alerts)

/-- Caller-visible outcome of `send_sms` (lines 135-150): the message was
handed to Twilio and a sid printed; or the Twilio call raised and line 147
logged it (soft failure); or a credential was `None` and line 150 logged the
warning without attempting delivery.  The function is total: no constructor
models an exception escaping to the caller. -/
inductive SmsOutcome
  | sent (sid : String)
  | soft_failure (err : String)
  | no_credentials
deriving DecidableEq, Repr

/-- Source lines 135-150, `send_sms`.  `delivery` is the oracle for the whole
try-block of lines 138-145 (client construction and `messages.create`):
`.ok sid` when it returns a message sid, `.error e` when it raises `e` — this
includes `Client` being `None` because the twilio import failed (line 158).
The guard is line 137: `None not in [account_sid, auth_token]`. -/
def send_sms (auth_token account_sid : Option String)
    (delivery : Except String String) : SmsOutcome :=
  if auth_token.isSome && account_sid.isSome then
    match delivery with
    | .ok sid => .sent sid
    | .error e => .soft_failure e
  else .no_credentials

/-- The whole shared state the two threads touch: `type_timers` written by the
connection thread, the monitoring thread's state around `ms_since_last`. -/
structure SystemState where
  type_timers : Table
  mon : TickState
deriving Repr

/-- An event of the interleaved execution: the connection thread handles one
inbound message, or the monitoring thread runs one tick. -/
inductive Event
  | recv (now : ℚ) (m : RawMsg)
  | tick (now : ℚ)
deriving Repr

/-- State at startup: `__init__` at time `t0` builds both tables (lines 43-46);
the monitoring thread starts with `sms_enabled = True` and
`latest_sms_time = time.time()` at its start instant `tstart` (lines 76-77). -/
def init_system (t0 tstart : ℚ) : SystemState :=
  ⟨init_type_timers t0, ⟨true, tstart, init_ms_since_last⟩⟩

/-- Interleaving step.  On a `recv` event the connection thread runs
`handle_response`; if it raises, the table is left as it was (the exception
goes to the supervisor, which reconnects against the same instance state).
On a `tick` event the monitoring thread runs one tick; `type_timers` is only
read there. -/
def step_event (s : SystemState) : Event → SystemState
  | .recv now m =>
    match handle_response s.type_timers now m with
    | .ok t' => { s with type_timers := t' }
    | .error _ => s
  | .tick now => { s with mon := (monitor_tick s.type_timers s.mon now).1 }

/-- Run a finite interleaving of the two threads from a state. -/
def run_events (s : SystemState) (evs : List Event) : SystemState :=
  evs.foldl step_event s

/-! Concrete fixtures used by witnesses and counterexamples. -/

/-- The timer table of an instance constructed at time 0. -/
def timers0 : Table := init_type_timers 0

/-- Monitoring-thread state right after thread start at time 0. -/
def tick0 : TickState := ⟨true, 0, init_ms_since_last⟩

/-- A connection attempt on which `websockets.connect` raises. -/
def fail_trace : SessionTrace := ⟨some "TransportError", [], none⟩

/-- A connection attempt that establishes and then never fails. -/
def ok_forever_trace : SessionTrace := ⟨none, [], none⟩

/-- Five consecutive transport failures, then a session that stays up. -/
def five_fail_sessions : Nat → SessionTrace :=
  fun i => if i < 5 then fail_trace else ok_forever_trace

/-- Every connection attempt fails. -/
def all_fail_sessions : Nat → SessionTrace := fun _ => fail_trace

/-- One transport failure, then a session that stays up. -/
def one_fail_then_ok : Nat → SessionTrace :=
  fun i => if i = 0 then fail_trace else ok_forever_trace

/-- A session that establishes and then receives one malformed message. -/
def malformed_session : SessionTrace := ⟨none, [(1, RawMsg.malformed)], none⟩

/-! Helper lemmas. -/

/-- Reading back a table after a write: the written key now holds the written
value, every other key is unchanged. -/
theorem findVal_setVal (t : Table) (k c : String) (v : ℚ) :
    findVal (setVal t k v) c = if c = k then some v else findVal t c := by
  induction t with
  | nil =>
    by_cases h : c = k
    · simp [setVal, findVal, h]
    · simp [setVal, findVal, h, Ne.symm h]
  | cons a t ih =>
    obtain ⟨ak, av⟩ := a
    by_cases h1 : ak = k <;> by_cases h2 : c = ak <;>
      simp_all [setVal, findVal, eq_comm]

/-- A write never removes a key that was present. -/
theorem findVal_isSome_setVal (t : Table) (k c : String) (v : ℚ)
    (h : (findVal t c).isSome = true) :
    (findVal (setVal t k v) c).isSome = true := by
  rw [findVal_setVal]
  by_cases hck : c = k <;> simp [hck, h]

/-- When the update loop of lines 82-84 succeeds and the `if sms_enabled:`
block returns, one tick is the alert phase followed by the re-enable check. -/
theorem monitor_tick_ok (timers : Table) (s : TickState) (now : ℚ) (ms' : Table)
    (en1 : Bool) (lt1 : ℚ) (alerts : List Alert)
    (hup : update_ms timers now s.ms_since_last = (ms', none))
    (hal : alert_check ms' s.sms_enabled s.latest_sms_time now = .ok (en1, lt1, alerts)) :
    monitor_tick timers s now = (⟨reenable_check en1 lt1 now, lt1, ms'⟩, alerts) := by
  simp [monitor_tick, hup, hal]

/-- The alert phase in the armed state, with both thresholded categories
present: it fires exactly when one of the two comparisons of lines 91 and 94
holds, and the one composed message lists the breaching categories in source
order with their elapsed values. -/
theorem alert_check_enabled (ms : Table) (latest now ml mc : ℚ)
    (hl : findVal ms "ledgerClosed" = some ml)
    (hc : findVal ms "consensusPhase" = some mc) :
    alert_check ms true latest now =
      if ml ≥ ledger_closed_threshold_seconds ∨ mc ≥ consensus_phase_threshold_seconds
      then .ok (false, now,
        [(if ml ≥ ledger_closed_threshold_seconds then [("ledgerClosed", ml)] else []) ++
         (if mc ≥ consensus_phase_threshold_seconds then [("consensusPhase", mc)] else [])])
      else .ok (true, latest, []) := by
  by_cases h1 : ml ≥ ledger_closed_threshold_seconds <;>
    by_cases h2 : mc ≥ consensus_phase_threshold_seconds <;>
      simp [alert_check, hl, hc, h1, h2]

/-- The alert phase in the cooling state does nothing. -/
theorem alert_check_disabled (ms : Table) (latest now : ℚ) :
    alert_check ms false latest now = .ok (false, latest, []) := rfl

/-- On the tick that fires an alert, the re-enable check of lines 104-111 runs
with `latest_sms_time = now` and leaves SMS disabled, since the elapsed gap is
0 and the window is 300. -/
theorem reenable_check_just_fired (now : ℚ) : reenable_check false now now = false := by
  have hnn : ¬(now - now > minimum_sms_gap_seconds) := by
    rw [sub_self]; norm_num [minimum_sms_gap_seconds]
  simp [reenable_check, hnn]
  norm_num [minimum_sms_gap_seconds]

/-- A table whose five known categories all carry the same value, as produced
by the update loop when all timers are 0 and the tick happens at `x`. -/
def ms_all (x : ℚ) : Table :=
  [("ledgerClosed", x), ("serverStatus", x), ("consensusPhase", x),
   ("response", x), ("totalRuntime", x)]

/-! Claim theorems. -/

/-- Claim C4: on every tick where alerting is enabled and at least one
category with a configured threshold (ledgerClosed at 8s, consensusPhase at
6s) has elapsed staleness breaching that threshold, exactly one
NotificationSink call occurs, carrying a single combined message that lists
every breached category with its elapsed value; alerts_enabled transitions to
false and last_alert_time is set to the tick's observed time. -/
theorem C4_theorem (timers : Table) (s : TickState) (now el ec : ℚ) (ms' : Table)
    (hen : s.sms_enabled = true)
    (hup : update_ms timers now s.ms_since_last = (ms', none))
    (hl : findVal ms' "ledgerClosed" = some el)
    (hc : findVal ms' "consensusPhase" = some ec)
    (hbr : el ≥ ledger_closed_threshold_seconds ∨ ec ≥ consensus_phase_threshold_seconds) :
    (monitor_tick timers s now).2 =
      [(if el ≥ ledger_closed_threshold_seconds then [("ledgerClosed", el)] else []) ++
       (if ec ≥ consensus_phase_threshold_seconds then [("consensusPhase", ec)] else [])] ∧
    (monitor_tick timers s now).1.sms_enabled = false ∧
    (monitor_tick timers s now).1.latest_sms_time = now := by
  have hal := alert_check_enabled ms' s.latest_sms_time now el ec hl hc
  rw [if_pos hbr] at hal
  have htick := monitor_tick_ok timers s now ms' false now _ hup (by rw [hen]; exact hal)
  rw [htick]
  exact ⟨rfl, reenable_check_just_fired now, rfl⟩

/-- Witness for C4: both categories 9 seconds stale at a tick at time 9 with
all timers at 0 produce one combined alert naming both, disable SMS, and
stamp the alert time 9. -/
theorem C4_witness :
    (monitor_tick timers0 tick0 9).2 = [[("ledgerClosed", 9), ("consensusPhase", 9)]] ∧
    (monitor_tick timers0 tick0 9).1.sms_enabled = false ∧
    (monitor_tick timers0 tick0 9).1.latest_sms_time = 9 := by
  have h := C4_theorem timers0 tick0 9 9 9 (ms_all 9) rfl
    (by simp +decide [update_ms, timers0, tick0, init_type_timers,
      init_ms_since_last, response_types, findVal, setVal, ms_all])
    (by simp +decide [ms_all, findVal]) (by simp +decide [ms_all, findVal])
    (by norm_num [ledger_closed_threshold_seconds])
  have h8 : (9:ℚ) ≥ ledger_closed_threshold_seconds := by
    norm_num [ledger_closed_threshold_seconds]
  have h6 : (9:ℚ) ≥ consensus_phase_threshold_seconds := by
    norm_num [consensus_phase_threshold_seconds]
  rw [if_pos h8, if_pos h6] at h
  simpa using h

/-- Claim C5: the alert cooldown is one global window shared by all
categories: on any tick starting with alerting disabled and less than the
300-second window elapsed since last_alert_time, no NotificationSink call is
made and alerting stays disabled, whatever the staleness of any category
(the table is universally quantified). -/
theorem C5_theorem (timers : Table) (s : TickState) (now : ℚ)
    (hdis : s.sms_enabled = false)
    (hcool : now - s.latest_sms_time < minimum_sms_gap_seconds) :
    (monitor_tick timers s now).2 = [] ∧
    (monitor_tick timers s now).1.sms_enabled = false := by
  have hnot : ¬(now - s.latest_sms_time > minimum_sms_gap_seconds) :=
    not_lt.mpr hcool.le
  rcases hu : update_ms timers now s.ms_since_last with ⟨ms', e⟩
  cases e with
  | some err => simp [monitor_tick, hu, hdis]
  | none =>
    have htick := monitor_tick_ok timers s now ms' false s.latest_sms_time []
      hu (by rw [hdis]; exact alert_check_disabled _ _ _)
    rw [htick]
    exact ⟨rfl, by simp [reenable_check, hnot]⟩

/-- Witness for C5: with every category 100 seconds stale (far beyond both
thresholds) but SMS disabled since time 0, the tick at time 100 sends
nothing and stays disabled. -/
theorem C5_witness :
    (monitor_tick timers0 ⟨false, 0, init_ms_since_last⟩ 100).2 = [] ∧
    (monitor_tick timers0 ⟨false, 0, init_ms_since_last⟩ 100).1.sms_enabled = false :=
  C5_theorem timers0 ⟨false, 0, init_ms_since_last⟩ 100 rfl
    (by norm_num [minimum_sms_gap_seconds])

/-- Counterexample to claim C6 as stated: the source re-enables only on
`time_diff > minimum_sms_gap_seconds` (line 107, strict).  With the last
alert at time 0, the tick at time 300 has elapsed cooldown exactly equal to
the 300-second window — at least the window, so the claim says this tick
re-enables — yet SMS stays disabled. -/
theorem C6_counterexample :
    (300:ℚ) - 0 ≥ minimum_sms_gap_seconds ∧
    (monitor_tick timers0 ⟨false, 0, init_ms_since_last⟩ 300).1.sms_enabled = false := by
  constructor
  · norm_num [minimum_sms_gap_seconds]
  · simp +decide [monitor_tick, update_ms, timers0, init_type_timers,
      init_ms_since_last, response_types, findVal, setVal, alert_check,
      reenable_check, minimum_sms_gap_seconds]

/-- Claim C6 (amended): whenever alerting is disabled and the elapsed time
since last_alert_time is STRICTLY MORE than the 300-second cooldown window,
the next tick (whose staleness-update loop completes) re-enables alerting,
regardless of whether any category is currently breaching its threshold. -/
theorem C6_theorem (timers : Table) (s : TickState) (now : ℚ) (ms' : Table)
    (hdis : s.sms_enabled = false)
    (hup : update_ms timers now s.ms_since_last = (ms', none))
    (hcool : now - s.latest_sms_time > minimum_sms_gap_seconds) :
    (monitor_tick timers s now).1.sms_enabled = true := by
  have htick := monitor_tick_ok timers s now ms' false s.latest_sms_time []
    hup (by rw [hdis]; exact alert_check_disabled _ _ _)
  rw [htick]
  simp [reenable_check, hcool]

/-- Witness for C6 (amended): disabled since time 0, the tick at time 301
re-enables SMS even though every category is long past its threshold. -/
theorem C6_witness :
    (monitor_tick timers0 ⟨false, 0, init_ms_since_last⟩ 301).1.sms_enabled = true :=
  C6_theorem timers0 ⟨false, 0, init_ms_since_last⟩ 301 (ms_all 301) rfl
    (by simp +decide [update_ms, timers0, init_type_timers, init_ms_since_last,
      response_types, findVal, setVal, ms_all])
    (by norm_num [minimum_sms_gap_seconds])

/-- Claim C7: a tick never triggers an alert on account of a category with no
configured threshold — the table is universally quantified, so serverStatus,
response and totalRuntime may be arbitrarily stale — and when both
thresholded categories are within threshold the tick sends nothing and never
disables alerting. -/
theorem C7_theorem (timers : Table) (s : TickState) (now el ec : ℚ) (ms' : Table)
    (hup : update_ms timers now s.ms_since_last = (ms', none))
    (hl : findVal ms' "ledgerClosed" = some el)
    (hc : findVal ms' "consensusPhase" = some ec)
    (hlt : el < ledger_closed_threshold_seconds)
    (hct : ec < consensus_phase_threshold_seconds) :
    (monitor_tick timers s now).2 = [] ∧
    (s.sms_enabled = true → (monitor_tick timers s now).1.sms_enabled = true) := by
  cases hen : s.sms_enabled with
  | false =>
    have htick := monitor_tick_ok timers s now ms' false s.latest_sms_time []
      hup (by rw [hen]; exact alert_check_disabled _ _ _)
    rw [htick]
    exact ⟨rfl, by simp [hen]⟩
  | true =>
    have hal := alert_check_enabled ms' s.latest_sms_time now el ec hl hc
    rw [if_neg (by push_neg; exact ⟨hlt, hct⟩)] at hal
    have htick := monitor_tick_ok timers s now ms' true s.latest_sms_time []
      hup (by rw [hen]; exact hal)
    rw [htick]
    exact ⟨rfl, fun _ => rfl⟩

/-- Witness for C7: a tick at time 3 with all timers at 0 — ledgerClosed 3s
stale (under 8), consensusPhase 3s stale (under 6), totalRuntime equally
stale with no threshold — sends nothing and keeps SMS enabled. -/
theorem C7_witness :
    (monitor_tick timers0 tick0 3).2 = [] ∧
    (tick0.sms_enabled = true → (monitor_tick timers0 tick0 3).1.sms_enabled = true) :=
  C7_theorem timers0 tick0 3 3 3 (ms_all 3)
    (by simp +decide [update_ms, timers0, tick0, init_type_timers,
      init_ms_since_last, response_types, findVal, setVal, ms_all])
    (by simp +decide [ms_all, findVal]) (by simp +decide [ms_all, findVal])
    (by norm_num [ledger_closed_threshold_seconds])
    (by norm_num [consensus_phase_threshold_seconds])

/-- Claim C10 (implicit): the staleness comparison is inclusive — the source
compares with `>=` on lines 91 and 94, so an elapsed time exactly equal to
the configured threshold (8 for ledgerClosed, 6 for consensusPhase) counts
as a breach: the tick sends one alert and disables alerting. -/
theorem C10_theorem (timers : Table) (s : TickState) (now el ec : ℚ) (ms' : Table)
    (hen : s.sms_enabled = true)
    (hup : update_ms timers now s.ms_since_last = (ms', none))
    (hl : findVal ms' "ledgerClosed" = some el)
    (hc : findVal ms' "consensusPhase" = some ec)
    (heq : el = ledger_closed_threshold_seconds ∨ ec = consensus_phase_threshold_seconds) :
    (monitor_tick timers s now).2.length = 1 ∧
    (monitor_tick timers s now).1.sms_enabled = false := by
  have hbr : el ≥ ledger_closed_threshold_seconds ∨ ec ≥ consensus_phase_threshold_seconds := by
    rcases heq with h | h
    · exact Or.inl (ge_of_eq h)
    · exact Or.inr (ge_of_eq h)
  have hal := alert_check_enabled ms' s.latest_sms_time now el ec hl hc
  rw [if_pos hbr] at hal
  have htick := monitor_tick_ok timers s now ms' false now _ hup (by rw [hen]; exact hal)
  rw [htick]
  exact ⟨rfl, reenable_check_just_fired now⟩

/-- Witness for C10: all timers at 0 and a tick at time 8, so ledgerClosed is
stale exactly 8 seconds, exactly its threshold: the alert fires. -/
theorem C10_witness :
    (monitor_tick timers0 tick0 8).2.length = 1 ∧
    (monitor_tick timers0 tick0 8).1.sms_enabled = false :=
  C10_theorem timers0 tick0 8 8 8 (ms_all 8) rfl
    (by simp +decide [update_ms, timers0, tick0, init_type_timers,
      init_ms_since_last, response_types, findVal, setVal, ms_all])
    (by simp +decide [ms_all, findVal]) (by simp +decide [ms_all, findVal])
    (Or.inl (by norm_num [ledger_closed_threshold_seconds]))

/-- Counterexample to claim C1 as stated: with 5 consecutive transport
failures (and the next session healthy), the code does issue exactly 5 retry
notifications, but it does NOT terminate — line 131 re-runs the cycle while
`reconnect_count <= max_retries`, and after the 5th failure the count is 5,
so a 6th connection attempt is made and the process is still running inside
it. -/
theorem C1_counterexample :
    (run_resilient_connection five_fail_sessions 0 0 timers0).retry_notifs = 5 ∧
    (run_resilient_connection five_fail_sessions 0 0 timers0).attempts = 6 ∧
    (run_resilient_connection five_fail_sessions 0 0 timers0).running = true := by
  simp +decide [run_resilient_connection, five_fail_sessions, fail_trace,
    ok_forever_trace, monitor_validator, receive_loop, max_retries]

/-- Claim C1 (amended): on every connection loss the supervisor increments
the retry counter and emits the retry-pending notification and 10-second
delay UNCONDITIONALLY (lines 126-130); only the re-run of the cycle is
guarded by attempt_count <= max_attempts (line 131).  Hence, given 5
consecutive transport failures with max_attempts = 5, exactly 5 retry-pending
notifications are issued and then a 6th connection attempt IS made; the
supervisor terminates permanently only after a 6th consecutive failure,
having by then issued 6 retry-pending notifications over 6 attempts. -/
theorem C1_theorem :
    ((run_resilient_connection five_fail_sessions 0 0 timers0).retry_notifs = 5 ∧
     (run_resilient_connection five_fail_sessions 0 0 timers0).attempts = 6 ∧
     (run_resilient_connection five_fail_sessions 0 0 timers0).running = true) ∧
    ((run_resilient_connection all_fail_sessions 0 0 timers0).retry_notifs = 6 ∧
     (run_resilient_connection all_fail_sessions 0 0 timers0).attempts = 6 ∧
     (run_resilient_connection all_fail_sessions 0 0 timers0).running = false ∧
     (run_resilient_connection all_fail_sessions 0 0 timers0).reconnect_count = 6) := by
  constructor
  · simp +decide [run_resilient_connection, five_fail_sessions, fail_trace,
      ok_forever_trace, monitor_validator, receive_loop, max_retries]
  · simp +decide [run_resilient_connection, all_fail_sessions, fail_trace,
      monitor_validator, receive_loop, max_retries]

/-- Counterexample to claim C2 as stated: a malformed message does leave the
table unchanged, but `handle_response` has no try/except, so the parse error
escapes and terminates the receive loop — the well-formed ledgerClosed
message queued right after it is never handled — and the supervisor then
counts a reconnect attempt (retry notification) for it. -/
theorem C2_counterexample :
    receive_loop timers0 [(1, RawMsg.malformed), (2, RawMsg.tagged "ledgerClosed")] =
      (timers0, some "JSONDecodeError") ∧
    (run_resilient_connection (fun i => if i = 0 then malformed_session else ok_forever_trace)
      0 0 timers0).retry_notifs = 1 := by
  constructor
  · simp [receive_loop, handle_response]
  · simp +decide [run_resilient_connection, malformed_session, ok_forever_trace,
      monitor_validator, receive_loop, handle_response, max_retries]

/-- Claim C2 (amended): for every malformed inbound message (failed JSON
parse or failed tag extraction) the LivenessTable is left unchanged — the
write on line 56 is never reached — but the error is NOT treated as a
per-message non-fatal condition: it propagates out of handle_response and
terminates the receive loop, leaving the rest of the inbound queue
unprocessed, and the connection supervisor handles it as a connection loss. -/
theorem C2_theorem (timers : Table) (now : ℚ) (rest : List (ℚ × RawMsg)) (m : RawMsg)
    (hm : m = RawMsg.malformed ∨ m = RawMsg.noTag) :
    ∃ e, handle_response timers now m = Except.error e ∧
      receive_loop timers ((now, m) :: rest) = (timers, some e) := by
  rcases hm with h | h <;> subst h
  · exact ⟨"JSONDecodeError", rfl, by simp [receive_loop, handle_response]⟩
  · exact ⟨"KeyError", rfl, by simp [receive_loop, handle_response]⟩

/-- Witness for C2 (amended): one malformed message at time 1 on the freshly
initialized table. -/
theorem C2_witness :
    ∃ e, handle_response timers0 1 RawMsg.malformed = Except.error e ∧
      receive_loop timers0 [(1, RawMsg.malformed)] = (timers0, some e) :=
  C2_theorem timers0 1 [] RawMsg.malformed (Or.inl rfl)

/-- Counterexample to claim C3 as stated: one transport failure followed by a
successful session yields exactly one "connection restored" notification, but
`reconnect_count` is NOT reset to 0 once the new session is established: the
reset on line 124 runs only after `asyncio.run` returns, which the unbounded
receive loop never does, so while the restored session runs the count is
still 1. -/
theorem C3_counterexample :
    (run_resilient_connection one_fail_then_ok 0 0 timers0).restored_notifs = 1 ∧
    (run_resilient_connection one_fail_then_ok 0 0 timers0).running = true ∧
    (run_resilient_connection one_fail_then_ok 0 0 timers0).reconnect_count = 1 := by
  simp +decide [run_resilient_connection, one_fail_then_ok, fail_trace,
    ok_forever_trace, monitor_validator, receive_loop, max_retries]

/-- Claim C3 (amended): a restoration notification is produced exactly when a
session starts (connect and subscribe succeed) with attempt_count > 0, so the
very first connection produces none and one failure followed by a successful
session produces exactly one; but attempt_count is NOT reset to 0 when the
new session is established — the reset statement is reachable only if the
session coroutine returns normally, which the `while True` receive loop makes
impossible, so after the successful reconnect the count stays 1 for the
session's lifetime. -/
theorem C3_theorem (count : Nat) (timers : Table) (tr : SessionTrace)
    (hconn : tr.connect_error = none) :
    ((monitor_validator count timers tr).restored_notifs = if 0 < count then 1 else 0) ∧
    ((run_resilient_connection one_fail_then_ok 0 0 timers).restored_notifs = 1 ∧
     (run_resilient_connection one_fail_then_ok 0 0 timers).reconnect_count = 1 ∧
     (run_resilient_connection one_fail_then_ok 0 0 timers).running = true) := by
  constructor
  · rcases hr : receive_loop timers tr.msgs with ⟨t', e⟩
    cases e <;> simp [monitor_validator, hconn, hr]
  · simp +decide [run_resilient_connection, one_fail_then_ok, fail_trace,
      ok_forever_trace, monitor_validator, receive_loop, max_retries]

/-- Witness for C3 (amended): the very first connection (attempt_count = 0)
of a healthy session produces no restoration notification. -/
theorem C3_witness :
    ((monitor_validator 0 timers0 ok_forever_trace).restored_notifs = if 0 < 0 then 1 else 0) ∧
    ((run_resilient_connection one_fail_then_ok 0 0 timers0).restored_notifs = 1 ∧
     (run_resilient_connection one_fail_then_ok 0 0 timers0).reconnect_count = 1 ∧
     (run_resilient_connection one_fail_then_ok 0 0 timers0).running = true) :=
  C3_theorem 0 timers0 ok_forever_trace rfl

/-- Claim C8: send_sms never raises past its own boundary for any input — it
is a total function into the three benign outcomes — and this theorem
characterizes it completely: a missing credential degrades to the logged
no-op warning with no delivery attempt, a delivery failure is caught and
reported as a soft failure with no retry, and a successful delivery reports
the message sid; in every case the caller proceeds. -/
theorem C8_theorem (auth_token account_sid : Option String)
    (delivery : Except String String) :
    ((auth_token = none ∨ account_sid = none) →
      send_sms auth_token account_sid delivery = SmsOutcome.no_credentials) ∧
    (∀ e, auth_token ≠ none → account_sid ≠ none → delivery = Except.error e →
      send_sms auth_token account_sid delivery = SmsOutcome.soft_failure e) ∧
    (∀ sid, auth_token ≠ none → account_sid ≠ none → delivery = Except.ok sid →
      send_sms auth_token account_sid delivery = SmsOutcome.sent sid) := by
  cases auth_token <;> cases account_sid <;> cases delivery <;>
    simp [send_sms]

/-- Witness for C8: with the auth token unset (as in the shipped
configuration, lines 166-169) even a delivery mechanism that would blow up
yields the logged warning outcome, and the same configuration with a working
mechanism still does. -/
theorem C8_witness :
    send_sms none (some "ACCOUNT") (Except.error "TwilioRestException") =
      SmsOutcome.no_credentials :=
  (C8_theorem none (some "ACCOUNT") (Except.error "TwilioRestException")).1 (Or.inl rfl)

/-- The table built by `__init__`, spelled out. -/
theorem init_type_timers_eq (t0 : ℚ) :
    init_type_timers t0 =
      [("ledgerClosed", 0), ("serverStatus", 0), ("consensusPhase", 0),
       ("response", 0), ("totalRuntime", t0)] := by
  simp +decide [init_type_timers, response_types, setVal]

/-- A successful `handle_response` never removes a key from the table. -/
theorem handle_response_preserves (timers t' : Table) (now : ℚ) (m : RawMsg)
    (c : String) (hok : handle_response timers now m = .ok t')
    (h : (findVal timers c).isSome = true) :
    (findVal t' c).isSome = true := by
  cases m with
  | malformed => simp [handle_response] at hok
  | noTag => simp [handle_response] at hok
  | tagged ty =>
    simp [handle_response] at hok
    rw [← hok]
    exact findVal_isSome_setVal timers ty c now h

/-- One interleaving step never removes a key from `type_timers`. -/
theorem step_event_preserves (s : SystemState) (ev : Event) (c : String)
    (h : (findVal s.type_timers c).isSome = true) :
    (findVal (step_event s ev).type_timers c).isSome = true := by
  cases ev with
  | recv now m =>
    rcases hh : handle_response s.type_timers now m with t' | t'
    · simpa [step_event, hh]
    · simp [step_event, hh]
      exact handle_response_preserves s.type_timers t' now m c hh h
  | tick now => simpa [step_event]

/-- No finite interleaving of the two threads removes a key. -/
theorem run_events_preserves (evs : List Event) (s : SystemState) (c : String)
    (h : (findVal s.type_timers c).isSome = true) :
    (findVal (run_events s evs).type_timers c).isSome = true := by
  induction evs generalizing s with
  | nil => exact h
  | cons ev evs ih => exact ih (step_event s ev) (step_event_preserves s ev c h)

/-- Claim C9: every known category has a LivenessTable entry at every point in
the process lifetime.  At startup the session-start marker totalRuntime is
initialized to the construction time t0 and every other known category to the
zero sentinel; after any finite interleaving of inbound messages and monitor
ticks every known category still has an entry (no entry is ever removed); and
a monitor tick — the only other activity — never changes type_timers at all,
so after initialization the table is mutated only by the dispatcher's message
handler. -/
theorem C9_theorem (t0 tstart : ℚ) (evs : List Event) (c : String)
    (hc : c ∈ response_types) :
    findVal (init_system t0 tstart).type_timers "totalRuntime" = some t0 ∧
    (c ≠ "totalRuntime" → findVal (init_system t0 tstart).type_timers c = some 0) ∧
    (findVal (run_events (init_system t0 tstart) evs).type_timers c).isSome = true ∧
    (∀ s now, (step_event s (Event.tick now)).type_timers = s.type_timers) := by
  have hinit : ∀ d, d ∈ response_types →
      (findVal (init_system t0 tstart).type_timers d).isSome = true := by
    intro d hd
    simp [response_types] at hd
    rcases hd with h | h | h | h | h <;> subst h <;>
      simp [init_system, init_type_timers_eq, findVal]
  refine ⟨?_, ?_, run_events_preserves evs _ c (hinit c hc), fun s now => rfl⟩
  · simp [init_system, init_type_timers_eq, findVal]
  · intro hne
    simp [response_types] at hc
    rcases hc with h | h | h | h | h <;> subst h <;>
      simp_all [init_system, init_type_timers_eq, findVal]

/-- Witness for C9: after a received ledgerClosed message and a monitor tick,
the ledgerClosed category still has an entry. -/
theorem C9_witness :
    findVal (init_system 0 0).type_timers "totalRuntime" = some 0 ∧
    ("ledgerClosed" ≠ "totalRuntime" →
      findVal (init_system 0 0).type_timers "ledgerClosed" = some 0) ∧
    (findVal (run_events (init_system 0 0)
      [Event.recv 1 (RawMsg.tagged "ledgerClosed"), Event.tick 5]).type_timers
      "ledgerClosed").isSome = true ∧
    (∀ s now, (step_event s (Event.tick now)).type_timers = s.type_timers) :=
  C9_theorem 0 0 [Event.recv 1 (RawMsg.tagged "ledgerClosed"), Event.tick 5]
    "ledgerClosed" (by simp [response_types])

end ValidatorMonitor
